import Mathlib

/-!
Shallow embedding of the status/completion model (src/result/completion.rs)
and of the PCI I/O protocol wrapper (src/proto/pci.rs) of this repository.
The surrounding status/result machinery (the `Status` methods, the `Result`
alias, the `Error` type and the `into_with_*` conversions) is used by the
sources but its module is not under src/, so it is modelled from the
specification where marked.

Side effects are made explicit data: a panic becomes `Except.error`, records
routed to the diagnostic sink become a `List Status`, and the possibly
uninitialized `MaybeUninit` storage of the single-element reads becomes an
`Option` whose unchecked read is an explicit fault.
-/

namespace Uefi

variable {T U E τ η : Type}

/-- Modelled from the spec: the raw firmware completion code `Status`, whose
implementing module is not under src/.  Spec §3/§6: a fixed-width (64-bit)
integer; code zero is success, high bit set is an error, any other value is a
warning. -/
structure Status where
  val : Nat
deriving DecidableEq

/-- Modelled from the spec: the success code is the value 0. -/
def Status.SUCCESS : Status := ⟨0⟩

/-- Modelled from the spec: error class membership is "high bit set" (bit 63
of the 64-bit code). -/
def Status.is_error (s : Status) : Bool := s.val.testBit 63

/-- Modelled from the spec: success is exactly the code zero (mirrors
`Status::is_success`, i.e. equality with SUCCESS). -/
def Status.is_success (s : Status) : Bool := s.val == 0

/-- Modelled from the spec: warning class membership: nonzero with the high
bit clear. -/
def Status.is_warning (s : Status) : Bool := !s.is_success && !s.is_error

/-- Source `Completion<T>` from src/result/completion.rs: a status paired with the
function result. -/
structure Completion (T : Type) where
  status : Status
  result : T
deriving DecidableEq

/-- Source `Completion::new`: build a completion from a status and a result; an
error status panics through `built_with_error`, modelled as `Except.error`
carrying the offending status. -/
def Completion.new (status : Status) (result : T) : Except Status (Completion T) :=
  if status.is_error then Except.error status else Except.ok ⟨status, result⟩

/-- Source `Completion::split`: decompose into the inner status and result. -/
def Completion.split (c : Completion T) : Status × T :=
  (c.status, c.result)

/-- Source `Completion::ignore_warning`: disregard the status, return the stored
result; no record is routed to the diagnostic sink. -/
def Completion.ignore_warning (c : Completion T) : T :=
  c.result

/-- Source `Completion::log`: return the stored result; the second component lists
the records emitted to the diagnostic sink, one for the stored status exactly
when it is not SUCCESS (the `log_warning` call in the source). -/
def Completion.log (c : Completion T) : T × List Status :=
  (c.result, if c.status = Status.SUCCESS then [] else [c.status])

/-- Source `Completion::map`: transform the inner value without unwrapping; the
status field is copied unchanged. -/
def Completion.map (c : Completion T) (f : T → U) : Completion U :=
  ⟨c.status, f c.result⟩

/-- Source `Completion::with_status`: if the extra status is a success the original
completion is returned with no diagnostic record; otherwise the stored
payload is passed through `log` (whose emitted records form the second
component) and a new completion is built from the extra status, which panics
(`Except.error`) when the extra status is an error, exactly as
`Completion::new` does. -/
def Completion.with_status (c : Completion T) (extra_status : Status) :
    Except Status (Completion T × List Status) :=
  if extra_status.is_success then Except.ok (c, [])
  else
    match Completion.new extra_status (Completion.log c).1 with
    | Except.error e => Except.error e
    | Except.ok c2 => Except.ok (c2, (Completion.log c).2)

/-- Source `impl From<Status> for Completion<()>`: goes through `Completion::new`. -/
def Completion.fromStatus (status : Status) : Except Status (Completion Unit) :=
  Completion.new status ()

/-- Source `impl From<T> for Completion<T>`: builds from SUCCESS and the value; the
error check inside `Completion::new` can never fire on SUCCESS, which the
lemma `fromVal_eq_new` below records, so the conversion is total. -/
def Completion.fromVal (result : T) : Completion T :=
  ⟨Status.SUCCESS, result⟩

/-- Modelled from the spec: `Error<ErrData>` of the absent result module: an
error-class status together with the recovery data handed back to the
caller. -/
structure Error (E : Type) where
  status : Status
  data : E
deriving DecidableEq

/-- Modelled from the spec: `Result<Output, ErrData>`: either a Completion
(success or warning, payload present) or an Error (payload absent). -/
abbrev Result (O : Type) (E : Type) : Type :=
  Except (Error E) (Completion O)

/-- Modelled from the spec: `Status::into_with_err`, the Status-to-Result
conversion used as `.into_with_err(f)` in pci.rs: an error-class status
produces the error case carrying the status and the closure's error data
(the closure runs only then); a success or warning produces a Completion
with that status and a unit payload. -/
def Status.into_with_err (s : Status) (f : Status → E) : Result Unit E :=
  if s.is_error then Except.error ⟨s, f s⟩ else Except.ok ⟨s, ()⟩

/-- The fault of evaluating `MaybeUninit::assume_init` on storage that the
firmware call never wrote. -/
inductive InvalidValue : Type where
  | uninit
deriving DecidableEq

/-- Source `MaybeUninit` storage content (`none` is uninitialized) read by
`assume_init`, which faults on uninitialized storage. -/
def assume_init : Option T → Except InvalidValue T
  | some v => Except.ok v
  | none => Except.error InvalidValue.uninit

/-- Modelled from the spec: `Status::into_with_val`, the Status-to-Result
conversion with a lazily evaluated payload closure: the closure runs only
when the status is not an error.  In the single-element reads the closure
body reads possibly uninitialized storage, so it is modelled as returning
`Except InvalidValue`; the outer layer records whether such a read ever
happens. -/
def Status.into_with_val (s : Status) (val : Unit → Except InvalidValue T) :
    Except InvalidValue (Result T Unit) :=
  if s.is_error then Except.ok (Except.error ⟨s, ()⟩)
  else
    match val () with
    | Except.error f => Except.error f
    | Except.ok v => Except.ok (Except.ok ⟨s, v⟩)

/-- Source `IoWidth` from pci.rs: a newtype enum over i32 raw values. -/
structure IoWidth where
  val : Int
deriving DecidableEq

/-- Source `IoWidth::U8` (raw value 0). -/
def IoWidth.U8 : IoWidth := ⟨0⟩

/-- Source `IoWidth::U16` (raw value 1). -/
def IoWidth.U16 : IoWidth := ⟨1⟩

/-- Source `IoWidth::U32` (raw value 2). -/
def IoWidth.U32 : IoWidth := ⟨2⟩

/-- Source `IoWidth::U64` (raw value 3). -/
def IoWidth.U64 : IoWidth := ⟨3⟩

/-- Source `IoRegister` from pci.rs: a newtype enum over u8 raw values. -/
structure IoRegister where
  val : Nat
deriving DecidableEq

/-- Source `IoRegister::R0`. -/
def IoRegister.R0 : IoRegister := ⟨0⟩

/-- Source `IoRegister::R1`. -/
def IoRegister.R1 : IoRegister := ⟨1⟩

/-- Source `IoRegister::R2`. -/
def IoRegister.R2 : IoRegister := ⟨2⟩

/-- Source `IoRegister::R3`. -/
def IoRegister.R3 : IoRegister := ⟨3⟩

/-- Source `IoRegister::R4`. -/
def IoRegister.R4 : IoRegister := ⟨4⟩

/-- Source `IoRegister::R5`. -/
def IoRegister.R5 : IoRegister := ⟨5⟩

/-- Source `IoRegister::PASS_THROUGH_BAR` (raw value 0xff). -/
def IoRegister.PASS_THROUGH_BAR : IoRegister := ⟨0xff⟩

/-- Source `IoOperation` from pci.rs (repr i32, discriminants 0, 1, 2). -/
inductive IoOperation : Type where
  | BusMasterRead
  | BusMasterWrite
  | BusMasterCommonBuffer
deriving DecidableEq

/-- The buffer element types for which pci.rs implements the `ToIoWidth`
trait: exactly u8, u16 and u32.  There is no impl for u64 or for any other
type, so this inductive is the whole domain of the width dispatch. -/
inductive ElemTy : Type where
  | u8
  | u16
  | u32
deriving DecidableEq

/-- The `ToIoWidth::IO_WIDTH` associated constant, per impl in pci.rs. -/
def toIoWidth : ElemTy → IoWidth
  | ElemTy.u8 => IoWidth.U8
  | ElemTy.u16 => IoWidth.U16
  | ElemTy.u32 => IoWidth.U32

/-- Source `Mapping` from pci.rs: `addr` holds the value the firmware returned
through the `mapping` out parameter of the map call (the value later handed
to the firmware unmap function), `device_addr` and `size` the other two out
parameters.  Pointer and address values are modelled as Nat. -/
structure Mapping where
  addr : Nat
  device_addr : Nat
  size : Nat
deriving DecidableEq

/-- The `PciIO` protocol call table (struct PciIO in pci.rs), modelled as the
firmware functions the wrapped operations call, parameterized by the buffer
element type τ.  A read function takes the width, (the bar,) the offset and
the element count and returns the status together with what the firmware
wrote into the caller's buffer (`none`: the buffer was left untouched, i.e.
still uninitialized for the single-element reads).  `mapFn` takes the
operation, the host address and the requested byte count, and returns the
status and the final values of the three out parameters (granted byte count,
device address, mapping value); the source initializes the out byte count to
the request, which this model subsumes since the firmware function may
return the request itself.  `unmapFn` takes the stored mapping value. -/
structure PciIo (τ : Type) where
  mem_read : IoWidth → IoRegister → Nat → Nat → Status × Option τ
  io_read : IoWidth → IoRegister → Nat → Nat → Status × Option τ
  config_read : IoWidth → Nat → Nat → Status × Option τ
  mapFn : IoOperation → Nat → Nat → Status × Nat × Nat × Nat
  unmapFn : Nat → Status

/-- Source `PciIO::read_config_single::<T>`: calls the config-space read function
with `T::IO_WIDTH` (here the tag `ew` of the element type), count 1 and a
fresh `MaybeUninit` buffer, then converts through `into_with_val` whose
closure runs `assume_init` on the buffer. -/
def PciIo.read_config_single (pci : PciIo τ) (ew : ElemTy) (offset : Nat) :
    Except InvalidValue (Result τ Unit) :=
  let r := pci.config_read (toIoWidth ew) offset 1
  r.1.into_with_val (fun _ => assume_init r.2)

/-- Source `PciIO::read_io_single::<T>`: as `read_config_single`, against the I/O
port space read function. -/
def PciIo.read_io_single (pci : PciIo τ) (ew : ElemTy) (bar : IoRegister) (offset : Nat) :
    Except InvalidValue (Result τ Unit) :=
  let r := pci.io_read (toIoWidth ew) bar offset 1
  r.1.into_with_val (fun _ => assume_init r.2)

/-- Source `PciIO::read_mem_single::<T>`: as `read_config_single`, against the
memory-mapped space read function. -/
def PciIo.read_mem_single (pci : PciIo τ) (ew : ElemTy) (bar : IoRegister) (offset : Nat) :
    Except InvalidValue (Result τ Unit) :=
  let r := pci.mem_read (toIoWidth ew) bar offset 1
  r.1.into_with_val (fun _ => assume_init r.2)

/-- Source `PciIO::map`: calls the firmware map function, converts the status
through `into_with_err` (error data: unit), then maps the completion payload
to a `Mapping` built from the three out parameters: the mapping value into
`addr`, the device address into `device_addr` and the granted byte count
into `size`.  The caller's host address is not stored. -/
def PciIo.map (pci : PciIo τ) (op : IoOperation) (host_addr : Nat) (num_bytes : Nat) :
    Result Mapping Unit :=
  match pci.mapFn op host_addr num_bytes with
  | (status, out_num_bytes, out_device_addr, out_mapping) =>
    Except.map
      (fun completion =>
        Completion.map completion (fun _ =>
          { addr := out_mapping, device_addr := out_device_addr, size := out_num_bytes }))
      (Status.into_with_err status (fun _ => ()))

/-- Source `PciIO::unmap`: calls the firmware unmap function on the stored mapping
value and converts through `into_with_err`, whose closure moves the Mapping
into the error data, so a failed unmap hands the Mapping back unchanged. -/
def PciIo.unmap (pci : PciIo τ) (mapping : Mapping) : Result Unit Mapping :=
  Status.into_with_err (pci.unmapFn mapping.addr) (fun _ => mapping)

/-- Source `MappingEx` from pci.rs: an optional live `Mapping`, the call table it
was made against, and the owned buffer. -/
structure MappingEx (τ : Type) (η : Type) where
  mapping : Option Mapping
  pci : PciIo τ
  buffer : η

/-- Source `PciIO::map_ex`: allocates a zeroed buffer (the buffer value, its host
address and its byte size come from the allocator and from size_of in the
source and are model parameters here), calls `map`, and on its ok case
discards any warning with `ignore_warning` and rebuilds a completion through
the `From` conversion, i.e. with status SUCCESS.  The second component lists
the records emitted to the diagnostic sink on this path: none, since neither
`into_with_err` nor `ignore_warning` nor the `From` conversion logs. -/
def PciIo.map_ex (pci : PciIo τ) (op : IoOperation) (host_addr : Nat) (num_bytes : Nat)
    (buffer : η) : Result (MappingEx τ η) Unit × List Status :=
  (Except.map
      (fun completion =>
        Completion.fromVal
          { mapping := some (Completion.ignore_warning completion)
            pci := pci
            buffer := buffer })
      (pci.map op host_addr num_bytes),
    [])

/-- The panic message of the `expect` call in `impl Drop for MappingEx`. -/
def unmapPanicMsg : String :=
  "failed to unmap something"

/-- Source `impl Drop for MappingEx`: takes the mapping out of the option if one is
present and runs `unmap(mapping).expect("failed to unmap something")`.
`expect` is core `Result::expect`: on the error case it panics (modelled as
`Except.error` with the panic message); on the ok case the returned
completion is discarded without inspection.  The `List Status` on the ok
side lists the records emitted to the diagnostic sink during the drop:
none are, on either path. -/
def MappingEx.drop (me : MappingEx τ η) : Except String (List Status) :=
  match me.mapping with
  | none => Except.ok []
  | some m =>
    match me.pci.unmap m with
    | Except.ok _ => Except.ok []
    | Except.error _ => Except.error unmapPanicMsg

/-- A concrete call table whose unmap function always returns the error
status with only the high bit set (everything else inert); used to evaluate
`unmap` at a concrete input. -/
def tableC2 : PciIo Unit where
  mem_read := fun _ _ _ _ => (Status.mk 0, none)
  io_read := fun _ _ _ _ => (Status.mk 0, none)
  config_read := fun _ _ _ => (Status.mk 0, none)
  mapFn := fun _ _ _ => (Status.mk 0, 0, 0, 0)
  unmapFn := fun _ => Status.mk (2 ^ 63)

/-- A concrete call table whose unmap function always returns an error-class
status; used to evaluate the MappingEx teardown at a concrete input. -/
def tableC3 : PciIo Unit where
  mem_read := fun _ _ _ _ => (Status.mk 0, none)
  io_read := fun _ _ _ _ => (Status.mk 0, none)
  config_read := fun _ _ _ => (Status.mk 0, none)
  mapFn := fun _ _ _ => (Status.mk 0, 0, 0, 0)
  unmapFn := fun _ => Status.mk (2 ^ 63)

/-- A concrete call table whose map function reports a warning status (code
6), a granted byte count of 2048, a device address of 36864 and a mapping
value of 42; used to evaluate `map` at a concrete input. -/
def tableC4 : PciIo Unit where
  mem_read := fun _ _ _ _ => (Status.mk 0, none)
  io_read := fun _ _ _ _ => (Status.mk 0, none)
  config_read := fun _ _ _ => (Status.mk 0, none)
  mapFn := fun _ _ _ => (Status.mk 6, 2048, 36864, 42)
  unmapFn := fun _ => Status.mk 0

/-- A concrete call table for the single-element reads: the config-space
read fails with an error-class status and leaves the buffer uninitialized,
the memory-space read succeeds writing 77, the I/O-space read completes with
a warning writing 9. -/
def tableC5 : PciIo Nat where
  mem_read := fun _ _ _ _ => (Status.mk 0, some 77)
  io_read := fun _ _ _ _ => (Status.mk 5, some 9)
  config_read := fun _ _ _ => (Status.mk (2 ^ 63), none)
  mapFn := fun _ _ _ => (Status.mk 0, 0, 0, 0)
  unmapFn := fun _ => Status.mk 0

/-- A concrete call table whose map function reports a warning status with a
granted byte count, device address and mapping value; used to evaluate
`map_ex` at a concrete input. -/
def tableC10 : PciIo Unit where
  mem_read := fun _ _ _ _ => (Status.mk 0, none)
  io_read := fun _ _ _ _ => (Status.mk 0, none)
  config_read := fun _ _ _ => (Status.mk 0, none)
  mapFn := fun _ _ _ => (Status.mk 6, 2048, 36864, 42)
  unmapFn := fun _ => Status.mk 0

/-- Helper: the From<T> conversion agrees with Completion::new at SUCCESS,
so eliding the statically false error check in `Completion.fromVal` is
sound. -/
theorem fromVal_eq_new (result : T) :
    Completion.new Status.SUCCESS result = Except.ok (Completion.fromVal result) := rfl

/-- Helper: on an error-class status, `into_with_val` never runs the payload
closure and returns the error case with no payload. -/
theorem into_with_val_error_case (s : Status) (f : Unit → Except InvalidValue T)
    (h : s.is_error = true) :
    Status.into_with_val s f = Except.ok (Except.error ⟨s, ()⟩) := by
  simp [Status.into_with_val, h]

/-- Helper: if `into_with_val` produced a Completion payload, the status was
not an error. -/
theorem into_with_val_ok_status (s : Status) (f : Unit → Except InvalidValue T)
    (c : Completion T) (h : Status.into_with_val s f = Except.ok (Except.ok c)) :
    s.is_error = false := by
  cases hb : s.is_error
  · rfl
  · rw [into_with_val_error_case s f hb] at h
    simp at h

/-- C1: for every error-class StatusCode and every payload, `Completion::new`
fails loudly with the contract-violation panic (modelled as the `Except.error`
case) and never produces a usable Completion value; the `From<Status>`
conversion goes through `new` and fails the same way, so every construction
path that can be handed an error status rejects it. -/
theorem C1_new_rejects_error_status {T : Type} (s : Status) (v : T)
    (h : s.is_error = true) :
    Completion.new s v = Except.error s ∧
      Completion.fromStatus s = Except.error s ∧
      ∀ c : Completion T, Completion.new s v ≠ Except.ok c := by
  refine ⟨?_, ?_, ?_⟩ <;> simp [Completion.new, Completion.fromStatus, h]

/-- C1 witness: evaluated at the error status with only the high bit set and
payload 0. -/
theorem C1_new_rejects_error_status_witness :
    (Status.mk (2 ^ 63)).is_error = true ∧
      (Completion.new (Status.mk (2 ^ 63)) (0 : Nat) = Except.error (Status.mk (2 ^ 63)) ∧
        Completion.fromStatus (Status.mk (2 ^ 63)) = Except.error (Status.mk (2 ^ 63)) ∧
        ∀ c : Completion Nat, Completion.new (Status.mk (2 ^ 63)) (0 : Nat) ≠ Except.ok c) :=
  ⟨by decide, C1_new_rejects_error_status (Status.mk (2 ^ 63)) 0 (by decide)⟩

/-- C2: if the firmware unmap function returns an error-class status for a
Mapping's stored mapping value, `PciIO::unmap` returns the error case
carrying that status together with the original Mapping unchanged: every
field (addr, device_addr, size) equals its pre-call value. -/
theorem C2_unmap_error_returns_mapping {τ : Type} (pci : PciIo τ) (m : Mapping)
    (h : (pci.unmapFn m.addr).is_error = true) :
    PciIo.unmap pci m = Except.error ⟨pci.unmapFn m.addr, m⟩ ∧
      ∀ e : Error Mapping, PciIo.unmap pci m = Except.error e →
        e.data.addr = m.addr ∧ e.data.device_addr = m.device_addr ∧ e.data.size = m.size := by
  have h1 : PciIo.unmap pci m = Except.error ⟨pci.unmapFn m.addr, m⟩ := by
    simp [PciIo.unmap, Status.into_with_err, h]
  refine ⟨h1, ?_⟩
  intro e he
  rw [h1] at he
  injection he with h2
  subst h2
  exact ⟨rfl, rfl, rfl⟩

/-- C2 witness: evaluated at the concrete call table whose unmap always
errors and the Mapping with fields 1, 2, 3. -/
theorem C2_unmap_error_returns_mapping_witness :
    (tableC2.unmapFn (Mapping.mk 1 2 3).addr).is_error = true ∧
      (PciIo.unmap tableC2 (Mapping.mk 1 2 3)
          = Except.error ⟨tableC2.unmapFn (Mapping.mk 1 2 3).addr, Mapping.mk 1 2 3⟩ ∧
        ∀ e : Error Mapping, PciIo.unmap tableC2 (Mapping.mk 1 2 3) = Except.error e →
          e.data.addr = (Mapping.mk 1 2 3).addr ∧
            e.data.device_addr = (Mapping.mk 1 2 3).device_addr ∧
            e.data.size = (Mapping.mk 1 2 3).size) :=
  ⟨by decide, C2_unmap_error_returns_mapping tableC2 (Mapping.mk 1 2 3) (by decide)⟩

/-- C3: evaluating the MappingEx teardown at the failing input — a live
mapping whose call table's unmap function returns an error-class status —
shows the teardown does not complete non-fatally with one diagnostic
record: it panics through core `Result::expect` (the `Except.error` case,
with the expect message), and no record reaches the diagnostic sink. -/
theorem C3_drop_panics_on_failed_unmap :
    MappingEx.drop (⟨some (Mapping.mk 1 2 3), tableC3, ()⟩ : MappingEx Unit Unit)
      = Except.error unmapPanicMsg := rfl

/-- C4 counterexample: at a concrete call table and call, the firmware
completes the map of host address 7 with a warning status and reports 42
through the mapping out parameter; the produced Mapping stores 42 — not the
caller's host address 7 — in its addr field, so the Mapping does not carry
the host address as the claim states. -/
theorem C4_counterexample :
    PciIo.map tableC4 IoOperation.BusMasterRead 7 4096
        = Except.ok ⟨Status.mk 6, Mapping.mk 42 36864 2048⟩ ∧
      Mapping.addr (Mapping.mk 42 36864 2048) ≠ 7 :=
  ⟨rfl, by decide⟩

/-- C4 (amended): for every map call the firmware completes with a success
or warning status, the Mapping produced carries the granted byte count as
its size (whatever the requested count was, in particular when shorter), the
device-visible address reported by the firmware, and — in its addr field —
the opaque value the firmware reported through the mapping out parameter
(the caller's host address is not stored); on an error-class status no
Mapping is produced. -/
theorem C4_map_propagates_granted_values {τ : Type} (pci : PciIo τ) (op : IoOperation)
    (host_addr num_bytes : Nat) (st : Status) (granted dev mv : Nat)
    (heq : pci.mapFn op host_addr num_bytes = (st, granted, dev, mv)) :
    (st.is_error = false →
        PciIo.map pci op host_addr num_bytes = Except.ok ⟨st, Mapping.mk mv dev granted⟩) ∧
      (st.is_error = true →
        PciIo.map pci op host_addr num_bytes = Except.error ⟨st, ()⟩) := by
  constructor <;> intro h <;>
    simp [PciIo.map, heq, Status.into_with_err, h, Completion.map, Except.map]

/-- C4 witness: the amended statement evaluated at the concrete call table
that grants 2048 of 4096 requested bytes with a warning status. -/
theorem C4_map_propagates_granted_values_witness :
    tableC4.mapFn IoOperation.BusMasterRead 7 4096 = (Status.mk 6, 2048, 36864, 42) ∧
      (((Status.mk 6).is_error = false →
          PciIo.map tableC4 IoOperation.BusMasterRead 7 4096
            = Except.ok ⟨Status.mk 6, Mapping.mk 42 36864 2048⟩) ∧
        ((Status.mk 6).is_error = true →
          PciIo.map tableC4 IoOperation.BusMasterRead 7 4096
            = Except.error ⟨Status.mk 6, ()⟩)) :=
  ⟨rfl, C4_map_propagates_granted_values tableC4 IoOperation.BusMasterRead 7 4096
      (Status.mk 6) 2048 36864 42 rfl⟩

/-- C5: for each single-element read variant and every width-tagged element
type, an error-class status from the firmware call makes the operation
return the Result error case with no payload, and the uninitialized storage
is never read (no InvalidValue fault occurs, whatever the storage holds, in
particular when the firmware left it unwritten); conversely a Completion
payload is produced only when the status is not an error. -/
theorem C5_single_reads_guard_uninit {τ : Type} (pci : PciIo τ) (ew : ElemTy)
    (coff : Nat) (bar : IoRegister) (off : Nat) :
    ((pci.config_read (toIoWidth ew) coff 1).1.is_error = true →
        PciIo.read_config_single pci ew coff
          = Except.ok (Except.error ⟨(pci.config_read (toIoWidth ew) coff 1).1, ()⟩)) ∧
      ((pci.io_read (toIoWidth ew) bar off 1).1.is_error = true →
        PciIo.read_io_single pci ew bar off
          = Except.ok (Except.error ⟨(pci.io_read (toIoWidth ew) bar off 1).1, ()⟩)) ∧
      ((pci.mem_read (toIoWidth ew) bar off 1).1.is_error = true →
        PciIo.read_mem_single pci ew bar off
          = Except.ok (Except.error ⟨(pci.mem_read (toIoWidth ew) bar off 1).1, ()⟩)) ∧
      (∀ c : Completion τ,
        PciIo.read_config_single pci ew coff = Except.ok (Except.ok c) →
          (pci.config_read (toIoWidth ew) coff 1).1.is_error = false) ∧
      (∀ c : Completion τ,
        PciIo.read_io_single pci ew bar off = Except.ok (Except.ok c) →
          (pci.io_read (toIoWidth ew) bar off 1).1.is_error = false) ∧
      (∀ c : Completion τ,
        PciIo.read_mem_single pci ew bar off = Except.ok (Except.ok c) →
          (pci.mem_read (toIoWidth ew) bar off 1).1.is_error = false) := by
  refine ⟨fun h => ?_, fun h => ?_, fun h => ?_,
    fun c h => ?_, fun c h => ?_, fun c h => ?_⟩
  · simp only [PciIo.read_config_single]
    exact into_with_val_error_case _ _ h
  · simp only [PciIo.read_io_single]
    exact into_with_val_error_case _ _ h
  · simp only [PciIo.read_mem_single]
    exact into_with_val_error_case _ _ h
  · exact into_with_val_ok_status _ _ c (by simpa only [PciIo.read_config_single] using h)
  · exact into_with_val_ok_status _ _ c (by simpa only [PciIo.read_io_single] using h)
  · exact into_with_val_ok_status _ _ c (by simpa only [PciIo.read_mem_single] using h)

/-- C5 witness: the error branch evaluated at the concrete call table whose
config-space read fails with the high-bit status and leaves the buffer
unwritten: the read returns the error case with no payload and no
uninitialized-value fault. -/
theorem C5_single_reads_guard_uninit_witness :
    (tableC5.config_read (toIoWidth ElemTy.u8) 0 1).1.is_error = true ∧
      PciIo.read_config_single tableC5 ElemTy.u8 0
        = Except.ok (Except.error ⟨(tableC5.config_read (toIoWidth ElemTy.u8) 0 1).1, ()⟩) :=
  ⟨by decide,
    (C5_single_reads_guard_uninit tableC5 ElemTy.u8 0 IoRegister.R0 0).1 (by decide)⟩

/-- C6: the compile-time width dispatch sends exactly the firmware
enumeration values — code 0 for 8-bit, code 1 for 16-bit, code 2 for 32-bit
elements — and never any other width for those types; the dispatch domain
(the types with a ToIoWidth impl) has no 64-bit member, and U64 (code 3) is
never produced. -/
theorem C6_width_dispatch_codes :
    toIoWidth ElemTy.u8 = IoWidth.U8 ∧ IoWidth.U8.val = 0 ∧
      toIoWidth ElemTy.u16 = IoWidth.U16 ∧ IoWidth.U16.val = 1 ∧
      toIoWidth ElemTy.u32 = IoWidth.U32 ∧ IoWidth.U32.val = 2 ∧
      ∀ t : ElemTy, toIoWidth t ≠ IoWidth.U64 := by
  refine ⟨rfl, rfl, rfl, rfl, rfl, rfl, ?_⟩
  intro t
  cases t <;> decide

/-- C7: Completion::map leaves the status unchanged for every completion and
every payload function, so map can never turn a warning into success or
success into a warning. -/
theorem C7_map_preserves_status {T U : Type} (c : Completion T) (f : T → U) :
    (Completion.map c f).status = c.status := rfl

/-- C8: with_status with SUCCESS returns the completion unchanged and emits
no diagnostic record; with a warning status it returns a completion whose
status is that warning and whose payload is the original payload, after
routing the stored status through log (which emits one record exactly when
the stored status is not SUCCESS). -/
theorem C8_with_status_success_and_warning {T : Type} (c : Completion T) (w : Status)
    (hw : w.is_warning = true) :
    Completion.with_status c Status.SUCCESS = Except.ok (c, []) ∧
      Completion.with_status c w
        = Except.ok (⟨w, c.result⟩,
            if c.status = Status.SUCCESS then [] else [c.status]) := by
  have h2 := hw
  rw [Status.is_warning, Bool.and_eq_true, Bool.not_eq_true', Bool.not_eq_true'] at h2
  constructor
  · simp [Completion.with_status, Status.is_success, Status.SUCCESS]
  · simp [Completion.with_status, h2.1, h2.2, Completion.new, Completion.log]

/-- C8 witness: evaluated at the completion holding the stored warning 7
with payload 3, once merged with SUCCESS and once with warning 4. -/
theorem C8_with_status_success_and_warning_witness :
    (Status.mk 4).is_warning = true ∧
      (Completion.with_status (Completion.mk (Status.mk 7) (3 : Nat)) Status.SUCCESS
          = Except.ok (Completion.mk (Status.mk 7) 3, []) ∧
        Completion.with_status (Completion.mk (Status.mk 7) (3 : Nat)) (Status.mk 4)
          = Except.ok
              (⟨Status.mk 4, (Completion.mk (Status.mk 7) (3 : Nat)).result⟩,
                if (Completion.mk (Status.mk 7) (3 : Nat)).status = Status.SUCCESS then []
                else [(Completion.mk (Status.mk 7) (3 : Nat)).status])) :=
  ⟨by decide,
    C8_with_status_success_and_warning (Completion.mk (Status.mk 7) 3) (Status.mk 4)
      (by decide)⟩

/-- C9: for every non-error status and every payload, building a completion
and splitting it returns exactly the parts: new then split is the identity
on (status, value). -/
theorem C9_new_split_roundtrip {T : Type} (s : Status) (v : T) (h : s.is_error = false) :
    ∃ c : Completion T, Completion.new s v = Except.ok c ∧ Completion.split c = (s, v) := by
  refine ⟨⟨s, v⟩, ?_, rfl⟩
  simp [Completion.new, h]

/-- C9 witness: evaluated at the warning status 1 and payload 42. -/
theorem C9_new_split_roundtrip_witness :
    (Status.mk 1).is_error = false ∧
      ∃ c : Completion Nat,
        Completion.new (Status.mk 1) 42 = Except.ok c ∧ Completion.split c = (Status.mk 1, 42) :=
  ⟨by decide, C9_new_split_roundtrip (Status.mk 1) 42 (by decide)⟩

/-- C10: whenever the underlying map call completes without error (success
or any warning status), map_ex returns a completion whose status is exactly
SUCCESS — the warning is discarded by ignore_warning with no diagnostic
record emitted (second component empty) and the completion is rebuilt with
SUCCESS through the From conversion — so callers of map_ex can never
observe a warning from map. -/
theorem C10_map_ex_masks_warnings {τ η : Type} (pci : PciIo τ) (op : IoOperation)
    (host_addr num_bytes : Nat) (buffer : η) (st : Status) (granted dev mv : Nat)
    (heq : pci.mapFn op host_addr num_bytes = (st, granted, dev, mv))
    (hok : st.is_error = false) :
    PciIo.map_ex pci op host_addr num_bytes buffer
      = (Except.ok ⟨Status.SUCCESS, ⟨some (Mapping.mk mv dev granted), pci, buffer⟩⟩, []) := by
  simp [PciIo.map_ex, PciIo.map, heq, Status.into_with_err, hok, Except.map,
    Completion.map, Completion.fromVal, Completion.ignore_warning]

/-- C10 witness: evaluated at the concrete call table whose map completes
with warning status 6: the map_ex result carries status SUCCESS and no
diagnostic record. -/
theorem C10_map_ex_masks_warnings_witness :
    tableC10.mapFn IoOperation.BusMasterRead 7 16 = (Status.mk 6, 2048, 36864, 42) ∧
      (Status.mk 6).is_error = false ∧
      PciIo.map_ex tableC10 IoOperation.BusMasterRead 7 16 ()
        = (Except.ok ⟨Status.SUCCESS, ⟨some (Mapping.mk 42 36864 2048), tableC10, ()⟩⟩, []) :=
  ⟨rfl, by decide,
    C10_map_ex_masks_warnings tableC10 IoOperation.BusMasterRead 7 16 ()
      (Status.mk 6) 2048 36864 42 rfl (by decide)⟩

end Uefi
